import Mathlib

/-!
# Shallow embedding of MaxContextFinder

Embedding of `src/main.py` and `src/vram_usage.py`. Python floats are
modelled as rationals and Python ints as `Int`/`Nat`. External effects
(the Ollama backend, GPU diagnostic tools, the clock) are modelled as
explicit environments supplying each observable outcome, so that every
function here is executable on concrete inputs.
-/

/-- Python exception classes relevant to the probing loop. -/
inductive PyExn where
  | timeoutError
  | responseError
  | connectionError
  | zeroDivisionError
  | attributeError
  | typeError
deriving DecidableEq

/-- The fields of an Ollama GenerateResponse that the code reads. A field
    the real response object lacks (hasattr false) is modelled as `none`.
    `eval_count` is the number of tokens generated and `eval_duration` the
    compute time in nanoseconds. -/
structure GenResponse where
  eval_count : Option Int
  eval_duration : Option Int
deriving DecidableEq

/-- The exception classes caught by the retry wrapper in retry_on_timeout
    (main.py lines 55-60): TimeoutError and timeout_decorator.TimeoutError,
    both collapsed to `timeoutError` here. -/
def caught_in_retry : PyExn → Bool
  | .timeoutError => true
  | _ => false

/-- The exception classes caught by the per-trial except clause of
    test_context_size (main.py line 187): TimeoutError and
    ollama.ResponseError. -/
def caught_in_trial : PyExn → Bool
  | .timeoutError => true
  | .responseError => true
  | _ => false

deriving instance DecidableEq for Except

/-- Outcome of run_ollama_query under the retry_on_timeout decorator: the
    returned value or propagated exception, the number of attempts made,
    and the number of time.sleep(1) pauses taken between attempts. -/
structure RetryOut where
  result : Except PyExn GenResponse
  attemptsUsed : Nat
  sleeps : Nat
deriving DecidableEq

/-- The for-loop of retry_on_timeout (main.py lines 46-62). `fuelLoop` is
    the number of loop iterations left, `k` the current attempt index and
    `s` the sleeps so far. `attempts k` is the outcome of the k-th call of
    the wrapped function: `Except.error PyExn.timeoutError` when the
    attempt timed out, another error when it raised an exception the
    wrapper does not catch, `Except.ok` when it returned. Falling out of
    the loop (possible only when max_retries = 0) is the `return None` at
    line 62, modelled as a `typeError` since the caller unpacks the
    result. -/
def retryFromAux (attempts : Nat → Except PyExn GenResponse) (maxRetries : Nat) :
    Nat → Nat → Nat → RetryOut
  | 0, k, s => ⟨.error .typeError, k, s⟩
  | fuelLoop + 1, k, s =>
    match attempts k with
    | .ok resp => ⟨.ok resp, k + 1, s⟩
    | .error e =>
      if caught_in_retry e then
        if k = maxRetries - 1 then ⟨.error .timeoutError, k + 1, s⟩
        else retryFromAux attempts maxRetries fuelLoop (k + 1) (s + 1)
      else ⟨.error e, k + 1, s⟩

/-- run_ollama_query (main.py lines 112-133) as decorated by
    retry_on_timeout: the inner body issues one generation request, and its
    ConnectionError handler logs and re-raises, so the wrapper sees each
    attempt outcome unchanged. -/
def run_ollama_query (attempts : Nat → Except PyExn GenResponse) (maxRetries : Nat) :
    RetryOut :=
  retryFromAux attempts maxRetries maxRetries 0 0

/-- calculate_tokens_per_second (main.py lines 136-141). Missing attributes
    default to 0 (eval_count) and 1 (eval_duration); the division
    eval_count / (eval_duration * 1e-9) raises ZeroDivisionError exactly
    when the denominator is zero, that is when eval_duration is present and
    equal to zero. -/
def calculate_tokens_per_second (r : GenResponse) : Except PyExn ℚ :=
  let c : ℚ := (r.eval_count.getD 0 : Int)
  let d : ℚ := (r.eval_duration.getD 1 : Int)
  if d * (1 / 1000000000) = 0 then .error .zeroDivisionError
  else .ok (c / (d * (1 / 1000000000)))

/-- analyze_test_sentence (main.py lines 69-88): the token count assigned to
    the fixed test sentence. The sentence text itself plays no role in the
    claims and is elided. -/
def analyze_test_sentence : Int := 11

/-- generate_test_prompt (main.py lines 91-109), token accounting only:
    given context_size, returns (total_tokens, repetitions) where
    repetitions = max(1, (context_size - 16) // 11) with Python floor
    division and total_tokens = 16 + repetitions * 11. The prompt string is
    elided. -/
def generate_test_prompt (context_size : Int) : Int × Int :=
  let base_prompt_tokens : Int := 16
  let tokens_per_sentence : Int := analyze_test_sentence
  let available_tokens := context_size - base_prompt_tokens
  let repetitions := max 1 (available_tokens.fdiv tokens_per_sentence)
  let total_tokens := base_prompt_tokens + repetitions * tokens_per_sentence
  (total_tokens, repetitions)

/-- statistics.mean over a list of rationals (applied only to nonempty
    lists, as at main.py line 192). -/
def mean (l : List ℚ) : ℚ := l.sum / l.length

/-- The environment one step observes: `query j` is the outcome of
    run_ollama_query for trial j (ok, or the propagated exception after the
    retry wrapper), and `vram k` is the pair returned by the k-th
    get_vram_info() call of the step (k = 0 is the initial sample). -/
structure TrialEnv where
  query : Nat → Except PyExn GenResponse
  vram : Nat → ℚ × ℚ

/-- The value returned by test_context_size: mean tokens per second, the
    current and maximum VRAM readings in scope at return and, as model
    instrumentation, the number of get_vram_info calls the step made. -/
structure StepRes where
  avg : ℚ
  cur : ℚ
  tot : ℚ
  samples : Nat
deriving DecidableEq

/-- The for-loop of test_context_size (main.py lines 154-189). `rem` trials
    remain, `i` is the trial index, `rates` the tokens-per-second list so
    far, `cur`/`tot` the VRAM variables in scope, `k` the next
    get_vram_info index. A successful trial appends its rate, samples VRAM,
    then builds the log record, whose direct attribute reads (lines 172 and
    174) raise AttributeError when eval_count or eval_duration is missing;
    only TimeoutError and ollama.ResponseError are caught per trial, every
    other exception propagates out of the step. -/
def trialLoop (env : TrialEnv) : Nat → Nat → List ℚ → ℚ → ℚ → Nat →
    Except PyExn (List ℚ × ℚ × ℚ × Nat)
  | 0, _, rates, cur, tot, k => .ok (rates, cur, tot, k)
  | rem + 1, i, rates, cur, tot, k =>
    match env.query i with
    | .ok resp =>
      match calculate_tokens_per_second resp with
      | .error e => .error e
      | .ok tps =>
        let cv := (env.vram k).1
        let mv := (env.vram k).2
        if resp.eval_count.isSome && resp.eval_duration.isSome then
          trialLoop env rem (i + 1) (rates ++ [tps]) cv mv (k + 1)
        else .error .attributeError
    | .error e =>
      if caught_in_trial e then trialLoop env rem (i + 1) rates cur tot k
      else .error e

/-- test_context_size (main.py lines 143-197). The initial VRAM log at line
    152 divides current_vram by max_vram with no guard, so a zero total
    raises ZeroDivisionError before any trial runs. When the rate list ends
    up empty the function returns 0.0 as the average. -/
def test_context_size (env : TrialEnv) (numTests : Nat) : Except PyExn StepRes :=
  let cv0 := (env.vram 0).1
  let mv0 := (env.vram 0).2
  if mv0 = 0 then .error .zeroDivisionError
  else
    match trialLoop env numTests 0 [] cv0 mv0 1 with
    | .error e => .error e
    | .ok (rates, cv, mv, k) =>
      if rates.isEmpty then .ok ⟨0, cv, mv, k⟩
      else .ok ⟨mean rates, cv, mv, k⟩

/-- The guarded VRAM percentage (main.py lines 162 and 219):
    current / max * 100 when max is positive, otherwise 0. -/
def vram_percent (cur tot : ℚ) : ℚ := if tot > 0 then cur / tot * 100 else 0

/-- The acceptance test of find_max_context (main.py line 222):
    is_good = avg_tokens_per_second >= minimum_token_rate and
    vram_percent < 99. -/
def is_good (minRate avg cur tot : ℚ) : Bool :=
  decide (avg ≥ minRate) && decide (vram_percent cur tot < 99)

/-- previous_tokens_per_second starts as float inf (main.py line 205) and
    thereafter holds measured step means. -/
inductive Rate where
  | inf
  | val (q : ℚ)
deriving DecidableEq

/-- How a run ends: `rejected` is the normal return after a failed
    acceptance test (main.py line 236), `fatal` the except
    ollama.ResponseError branch (lines 242-244) - both return the previous
    size and rate - `crash` an uncaught exception, and `fuelOut` the
    modelling artifact of bounding the unbounded while-loop. -/
inductive RunResult where
  | rejected (size : Nat) (rate : Rate)
  | fatal (size : Nat) (rate : Rate)
  | crash (e : PyExn)
  | fuelOut (size : Nat)
deriving DecidableEq

/-- The while-loop of find_max_context (main.py lines 215-244), driven by an
    environment giving each step index its TrialEnv. Returns the run
    result, the list of context sizes passed to test_context_size, and the
    list of (context size, mean rate) pairs of the accepted steps. -/
def fmcLoop (env : Nat → TrialEnv) (numTests : Nat) (minRate : ℚ) (stepSize : Nat) :
    Nat → Nat → Nat → Nat → Rate → RunResult × List Nat × List (Nat × ℚ)
  | 0, _, ctx, _, _ => (.fuelOut ctx, [], [])
  | fuel + 1, i, ctx, ps, pr =>
    match test_context_size (env i) numTests with
    | .error e =>
      if e = .responseError then (.fatal ps pr, [ctx], [])
      else (.crash e, [ctx], [])
    | .ok sr =>
      if is_good minRate sr.avg sr.cur sr.tot then
        let R := fmcLoop env numTests minRate stepSize fuel (i + 1) (ctx + stepSize)
          ctx (.val sr.avg)
        (R.1, ctx :: R.2.1, (ctx, sr.avg) :: R.2.2)
      else (.rejected ps pr, [ctx], [])

/-- find_max_context (main.py lines 200-244), the loop bounded by fuel:
    context_size and previous_context_size start at start_size and
    previous_tokens_per_second at inf. -/
def find_max_context (env : Nat → TrialEnv) (fuel start_size stepSize : Nat)
    (minRate : ℚ) (numTests : Nat) : RunResult × List Nat × List (Nat × ℚ) :=
  fmcLoop env numTests minRate stepSize fuel 0 start_size start_size .inf

/-- GPU vendors get_vram_info can detect (vram_usage.py lines 26-47). -/
inductive GpuKind where
  | nvidia
  | amd_rocm
  | amd_radeontop
deriving DecidableEq

/-- get_vram_info (vram_usage.py lines 115-131) after the cached vendor
    detection: dispatches to the detected vendor sampler and returns the
    (0.0, 0.0) sentinel when no supported tool was found. The vendor
    samplers shell out to external tools and are modelled as an oracle. -/
def get_vram_info (gpu : Option GpuKind) (sample : GpuKind → ℚ × ℚ) : ℚ × ℚ :=
  match gpu with
  | some g => sample g
  | none => (0, 0)

/-- Whether a trial query returned a response at all. -/
def isSuccess (q : Except PyExn GenResponse) : Bool :=
  match q with
  | .ok _ => true
  | .error _ => false

/-- Number of successful queries among trials i, i+1, ..., i+rem-1. -/
def successesIn (env : TrialEnv) : Nat → Nat → Nat
  | _, 0 => 0
  | i, rem + 1 => (if isSuccess (env.query i) then 1 else 0) + successesIn env (i + 1) rem

/-- A trial outcome that does not crash the step: either an exception the
    per-trial except clause catches, or a response carrying both eval
    fields with a nonzero duration. -/
def validTrial : Except PyExn GenResponse → Bool
  | .ok r => r.eval_count.isSome && r.eval_duration.isSome && decide (r.eval_duration ≠ some 0)
  | .error e => caught_in_trial e

/-- A response of 100 tokens generated in 2 seconds: 50 tokens/sec. -/
def respGood : GenResponse := ⟨some 100, some 2000000000⟩

/-- Every trial succeeds at 50 tokens/sec, VRAM at 1000/8000 MB. -/
def envAccept : TrialEnv := ⟨fun _ => .ok respGood, fun _ => (1000, 8000)⟩

/-- Every trial times out after retry exhaustion, VRAM at 1000/8000 MB. -/
def envAllFail : TrialEnv := ⟨fun _ => .error .timeoutError, fun _ => (1000, 8000)⟩

/-- Every trial times out, VRAM at 7999/8000 MB (99.9875 percent). -/
def envHighMem : TrialEnv := ⟨fun _ => .error .timeoutError, fun _ => (7999, 8000)⟩

/-- The memory sampler yields the (0, 0) no-data sentinel. -/
def envZeroVram : TrialEnv := ⟨fun _ => .ok respGood, fun _ => (0, 0)⟩

/-- Every trial returns a response whose eval_duration is zero. -/
def envZeroDur : TrialEnv := ⟨fun _ => .ok ⟨some 100, some 0⟩, fun _ => (1000, 8000)⟩

/-- Step 0 succeeds at 50 tokens/sec, every later step has all trials
    failing. -/
def envC2run : Nat → TrialEnv := fun i => if i = 0 then envAccept else envAllFail

/-- Step 0: trial 0 raises ollama.ResponseError, later trials succeed at
    50 tokens/sec; every later step has all trials timing out. -/
def envC6run : Nat → TrialEnv := fun i =>
  if i = 0 then
    ⟨fun j => if j = 0 then .error .responseError else .ok respGood, fun _ => (1000, 8000)⟩
  else envAllFail

/-- One step whose single trial times out; the initial VRAM sample reads
    (1000, 8000) and any later sample would read (2000, 8000). -/
def envC7one : TrialEnv :=
  ⟨fun _ => .error .timeoutError, fun k => if k = 0 then (1000, 8000) else (2000, 8000)⟩

/-- Trial 0 times out, later trials succeed at 50 tokens/sec. -/
def envC7mix : TrialEnv :=
  ⟨fun j => if j = 0 then .error .timeoutError else .ok respGood, fun _ => (1000, 8000)⟩

/-- Step 0 has all trials failing with low memory, step 1 has all trials
    failing with memory above the 99 percent cutoff. -/
def envC8run : Nat → TrialEnv := fun i => if i = 0 then envAllFail else envHighMem

/-- Attempt 0 times out, every later attempt raises ConnectionError. -/
def attemptsMixed : Nat → Except PyExn GenResponse :=
  fun j => if j = 0 then .error .timeoutError else .error .connectionError

/-! ## Claim theorems -/

set_option maxRecDepth 100000

/-- Claim C1: the Controller accepts a step iff its mean tokens per second
    is at least the configured minimum token rate and the memory percentage
    is below 99, where the memory percentage is used/total*100 when the
    total is positive and 0 otherwise, so a zero memory reading can never
    cause rejection on its own. -/
theorem c1_acceptance_policy (minRate avg cur tot : ℚ) :
    (is_good minRate avg cur tot = true ↔
      (avg ≥ minRate ∧ vram_percent cur tot < 99)) ∧
    vram_percent cur tot = (if tot > 0 then cur / tot * 100 else 0) ∧
    (¬ tot > 0 → vram_percent cur tot < 99) := by
  refine ⟨?_, rfl, ?_⟩
  · simp [is_good]
  · intro h
    rw [vram_percent, if_neg h]
    norm_num

/-- Witness for C1 at concrete inputs, including a zero memory reading. -/
theorem c1_acceptance_policy_witness :
    (is_good 10 50 1000 8000 = true ↔ ((50 : ℚ) ≥ 10 ∧ vram_percent 1000 8000 < 99)) ∧
    vram_percent 0 0 < 99 :=
  ⟨(c1_acceptance_policy 10 50 1000 8000).1,
   (c1_acceptance_policy 10 0 0 0).2.2 (by norm_num)⟩

/-- Claim C4 (code bug): calculate_tokens_per_second does not treat a zero
    or absent eval_duration as a failed trial. A present zero duration
    makes the denominator zero, raising ZeroDivisionError, which the
    per-trial except clause does not catch, so the whole run crashes; an
    absent duration defaults to one nanosecond and yields a finite but
    absurd 10^11 tokens/sec that does enter the mean. -/
theorem c4_token_rate_zero_duration :
    calculate_tokens_per_second ⟨some 100, some 0⟩ = .error .zeroDivisionError ∧
    caught_in_trial .zeroDivisionError = false ∧
    calculate_tokens_per_second ⟨some 100, none⟩ = .ok 100000000000 ∧
    find_max_context (fun _ => envZeroDur) 2 1024 1024 10 1 =
      (.crash .zeroDivisionError, [1024], []) := by decide!

/-- Claim C5 (code bug): get_vram_info returns the (0, 0) sentinel when no
    vendor tool is detected, but its caller does not treat that reading as
    inconclusive: the initial VRAM log of test_context_size divides by the
    zero total and raises ZeroDivisionError, which nothing catches, so a
    run on a machine without a supported GPU tool crashes instead of
    completing normally. -/
theorem c5_zero_reading_crashes_run :
    get_vram_info none (fun _ => (123, 456)) = (0, 0) ∧
    test_context_size envZeroVram 3 = .error .zeroDivisionError ∧
    find_max_context (fun _ => envZeroVram) 2 1024 1024 10 3 =
      (.crash .zeroDivisionError, [1024], []) := by decide!

/-- Claim C6 counterexample: in envC6run the first trial of step 0 raises
    ollama.ResponseError, yet the run does not stop immediately: the
    remaining trial at size 1024 still runs and measures 50 tokens/sec, the
    step is accepted, size 2048 is probed next, and the run ends through
    the acceptance policy - never through the Controller ResponseError
    branch, and not with the pre-error best values (1024, inf). -/
theorem c6_counterexample :
    (envC6run 0).query 0 = .error .responseError ∧
    find_max_context envC6run 3 1024 1024 10 2 =
      (.rejected 1024 (.val 50), [1024, 2048], [(1024, 50)]) := by decide!

/-- Claim C7 counterexample: with a single failing trial only one memory
    sample is ever taken - the initial one - so no sample follows the
    failed attempt, and the reported reading is the initial (1000, 8000),
    not the (2000, 8000) a post-attempt sample would have returned. -/
theorem c7_counterexample :
    test_context_size envC7one 1 = .ok ⟨0, 1000, 8000, 1⟩ ∧
    envC7one.vram 1 = (2000, 8000) := by decide!

/-- Claim C8 counterexample: with minimum token rate 0 a step whose every
    trial fails has mean 0 and is ACCEPTED, because 0 >= 0 holds and memory
    sits below 99 percent, so the run continues instead of stopping: size
    1024 of envC8run appears in the accepted list with rate 0. -/
theorem c8_counterexample :
    (envC8run 0).query 0 = .error .timeoutError ∧
    find_max_context envC8run 2 1024 1024 0 1 =
      (.rejected 1024 (.val 0), [1024, 2048], [(1024, 0)]) := by decide!

/-- Claim C10: for positive context_size, generate_test_prompt computes
    repetitions = max(1, (context_size - 16) // 11) and estimates
    16 + 11 * repetitions tokens; the estimate never exceeds context_size
    once context_size >= 27, while for smaller positive context sizes the
    clamp to one repetition makes the estimate exactly 27, exceeding the
    requested size. -/
theorem c10_prompt_token_estimate (cs : Int) (hpos : 0 < cs) :
    (generate_test_prompt cs).2 = max 1 ((cs - 16).fdiv 11) ∧
    (generate_test_prompt cs).1 = 16 + 11 * (generate_test_prompt cs).2 ∧
    (27 ≤ cs → (generate_test_prompt cs).1 ≤ cs) ∧
    (cs < 27 → (generate_test_prompt cs).1 = 27 ∧ cs < (generate_test_prompt cs).1) := by
  have hfe : (cs - 16).fdiv 11 = (cs - 16) / 11 := Int.fdiv_eq_ediv _ (by norm_num)
  refine ⟨rfl, ?_, ?_, ?_⟩
  · show 16 + max 1 ((cs - 16).fdiv 11) * 11 = 16 + 11 * max 1 ((cs - 16).fdiv 11)
    ring
  · intro h27
    show 16 + max 1 ((cs - 16).fdiv 11) * 11 ≤ cs
    rw [hfe]
    omega
  · intro hlt
    refine ⟨?_, ?_⟩
    · show 16 + max 1 ((cs - 16).fdiv 11) * 11 = 27
      rw [hfe]
      omega
    · show cs < 16 + max 1 ((cs - 16).fdiv 11) * 11
      rw [hfe]
      omega

/-- Witness for C10 at context sizes 1024 and 5. -/
theorem c10_prompt_token_estimate_witness :
    (generate_test_prompt 1024).1 = 16 + 11 * (generate_test_prompt 1024).2 ∧
    (generate_test_prompt 1024).1 ≤ 1024 ∧
    (generate_test_prompt 5).1 = 27 :=
  ⟨(c10_prompt_token_estimate 1024 (by norm_num)).2.1,
   (c10_prompt_token_estimate 1024 (by norm_num)).2.2.1 (by norm_num),
   ((c10_prompt_token_estimate 5 (by norm_num)).2.2.2 (by norm_num)).1⟩

/-- Helper: getLast? is preserved by consing onto a list that already has a
    last element. -/
theorem getLast?_cons_of_getLast? {α : Type} (a : α) {l : List α} {x : α}
    (h : l.getLast? = some x) : (a :: l).getLast? = some x := by
  cases l with
  | nil => simp at h
  | cons b t => rw [List.getLast?_cons_cons]; exact h

/-- Helper: when the probing loop ends in a rejection it returns exactly the
    running previous pair, which is the last accepted step when one exists
    and the incoming state otherwise. -/
theorem fmcLoop_rejected_last (env : Nat → TrialEnv) (numTests : Nat) (minRate : ℚ)
    (stepSize : Nat) :
    ∀ fuel i ctx ps pr s r,
      (fmcLoop env numTests minRate stepSize fuel i ctx ps pr).1 = RunResult.rejected s r →
      ((fmcLoop env numTests minRate stepSize fuel i ctx ps pr).2.2 = [] ∧
        s = ps ∧ r = pr) ∨
      (∃ q, ((fmcLoop env numTests minRate stepSize fuel i ctx ps pr).2.2).getLast? =
        some (s, q) ∧ r = Rate.val q) := by
  intro fuel
  induction fuel with
  | zero =>
    intro i ctx ps pr s r h
    simp [fmcLoop] at h
  | succ n ih =>
    intro i ctx ps pr s r h
    simp only [fmcLoop] at h ⊢
    rcases htc : test_context_size (env i) numTests with e | sr
    · rw [htc] at h
      dsimp only at h ⊢
      by_cases he : e = PyExn.responseError
      · rw [if_pos he] at h
        simp at h
      · rw [if_neg he] at h
        simp at h
    · rw [htc] at h
      dsimp only at h ⊢
      by_cases hg : is_good minRate sr.avg sr.cur sr.tot = true
      · rw [if_pos hg] at h ⊢
        dsimp only at h ⊢
        rcases ih (i + 1) (ctx + stepSize) ctx (Rate.val sr.avg) s r h with
          ⟨hnil, hs, hr⟩ | ⟨q, hlast, hr⟩
        · refine Or.inr ⟨sr.avg, ?_, hr⟩
          rw [hnil, List.getLast?_singleton, hs]
        · exact Or.inr ⟨q, getLast?_cons_of_getLast? _ hlast, hr⟩
      · rw [if_neg hg] at h ⊢
        dsimp only at h ⊢
        injection h with h1 h2
        exact Or.inl ⟨rfl, h1.symm, h2.symm⟩

/-- Claim C2: when a run stops because a step was rejected by the acceptance
    policy, find_max_context returns the size and mean rate of the last
    accepted step, and when the very first step is rejected it returns the
    starting size paired with the inf sentinel. -/
theorem c2_rejected_returns_last_accepted (env : Nat → TrialEnv)
    (fuel start_size stepSize : Nat) (minRate : ℚ) (numTests : Nat) (s : Nat) (r : Rate)
    (h : (find_max_context env fuel start_size stepSize minRate numTests).1 =
      RunResult.rejected s r) :
    ((find_max_context env fuel start_size stepSize minRate numTests).2.2 = [] ∧
      s = start_size ∧ r = Rate.inf) ∨
    (∃ q, ((find_max_context env fuel start_size stepSize minRate numTests).2.2).getLast? =
      some (s, q) ∧ r = Rate.val q) :=
  fmcLoop_rejected_last env numTests minRate stepSize fuel 0 start_size start_size
    Rate.inf s r h

/-- Witness for C2: a run that accepts size 1024 at 50 tokens/sec and then
    rejects size 2048 returns exactly the last accepted pair. -/
theorem c2_rejected_returns_last_accepted_witness :
    ((find_max_context envC2run 3 1024 1024 10 1).2.2 = [] ∧
      1024 = 1024 ∧ Rate.val 50 = Rate.inf) ∨
    (∃ q, ((find_max_context envC2run 3 1024 1024 10 1).2.2).getLast? =
      some (1024, q) ∧ Rate.val 50 = Rate.val q) :=
  c2_rejected_returns_last_accepted envC2run 3 1024 1024 10 1 1024 (Rate.val 50)
    (by decide!)

/-- Helper: the context sizes probed by the loop form the arithmetic
    sequence starting at the current size with the configured step. -/
theorem fmcLoop_probed (env : Nat → TrialEnv) (numTests : Nat) (minRate : ℚ)
    (stepSize : Nat) :
    ∀ fuel i ctx ps pr,
      (fmcLoop env numTests minRate stepSize fuel i ctx ps pr).2.1 =
        (List.range (fmcLoop env numTests minRate stepSize fuel i ctx ps pr).2.1.length).map
          (fun j => ctx + j * stepSize) := by
  intro fuel
  induction fuel with
  | zero =>
    intro i ctx ps pr
    simp [fmcLoop]
  | succ n ih =>
    intro i ctx ps pr
    simp only [fmcLoop]
    rcases htc : test_context_size (env i) numTests with e | sr
    · dsimp only
      by_cases he : e = PyExn.responseError
      · rw [if_pos he]; simp [List.range_succ]
      · rw [if_neg he]; simp [List.range_succ]
    · dsimp only
      by_cases hg : is_good minRate sr.avg sr.cur sr.tot = true
      · rw [if_pos hg]
        dsimp only
        rw [List.length_cons, List.range_succ_eq_map, List.map_cons, List.map_map]
        congr 1
        · simp
        · calc
            (fmcLoop env numTests minRate stepSize n (i + 1) (ctx + stepSize) ctx
                (Rate.val sr.avg)).2.1 =
                List.map (fun j => ctx + stepSize + j * stepSize)
                  (List.range (fmcLoop env numTests minRate stepSize n (i + 1)
                    (ctx + stepSize) ctx (Rate.val sr.avg)).2.1.length) :=
              ih (i + 1) (ctx + stepSize) ctx (Rate.val sr.avg)
            _ = List.map ((fun j => ctx + j * stepSize) ∘ Nat.succ)
                  (List.range (fmcLoop env numTests minRate stepSize n (i + 1)
                    (ctx + stepSize) ctx (Rate.val sr.avg)).2.1.length) := by
              apply List.map_congr_left
              intro j hj
              simp only [Function.comp_apply, Nat.succ_eq_add_one]
              ring
      · rw [if_neg hg]; simp [List.range_succ]

/-- Helper: with a positive step size the probed sizes are strictly
    increasing. -/
theorem fmcLoop_probed_sorted (env : Nat → TrialEnv) (numTests : Nat) (minRate : ℚ)
    (stepSize : Nat) (hs : 0 < stepSize) (fuel i ctx ps : Nat) (pr : Rate) :
    ((fmcLoop env numTests minRate stepSize fuel i ctx ps pr).2.1).Pairwise (· < ·) := by
  rw [fmcLoop_probed]
  rw [List.pairwise_map]
  refine (List.pairwise_lt_range _).imp ?_
  intro a b hab
  exact Nat.add_lt_add_left (mul_lt_mul_of_pos_right hab hs) ctx

/-- Claim C3: the context sizes passed to the Trial Runner form exactly the
    arithmetic sequence start, start+step, start+2*step, ... with no gaps or
    repeats, strictly increasing when the step size is positive, until the
    run stops. -/
theorem c3_arithmetic_probe_sequence (env : Nat → TrialEnv)
    (fuel start_size stepSize : Nat) (minRate : ℚ) (numTests : Nat) :
    (find_max_context env fuel start_size stepSize minRate numTests).2.1 =
      (List.range
        (find_max_context env fuel start_size stepSize minRate numTests).2.1.length).map
        (fun j => start_size + j * stepSize) ∧
    (0 < stepSize →
      ((find_max_context env fuel start_size stepSize minRate numTests).2.1).Pairwise
        (· < ·)) :=
  ⟨fmcLoop_probed env numTests minRate stepSize fuel 0 start_size start_size Rate.inf,
   fun hs => fmcLoop_probed_sorted env numTests minRate stepSize hs fuel 0 start_size
     start_size Rate.inf⟩

/-- Witness for C3 on a concrete two-step run. -/
theorem c3_arithmetic_probe_sequence_witness :
    (find_max_context envC2run 3 1024 1024 10 1).2.1 =
      (List.range (find_max_context envC2run 3 1024 1024 10 1).2.1.length).map
        (fun j => 1024 + j * 1024) ∧
    ((find_max_context envC2run 3 1024 1024 10 1).2.1).Pairwise (· < ·) :=
  ⟨(c3_arithmetic_probe_sequence envC2run 3 1024 1024 10 1).1,
   (c3_arithmetic_probe_sequence envC2run 3 1024 1024 10 1).2 (by norm_num)⟩

/-- Helper: the only exception the token-rate derivation can raise is
    ZeroDivisionError, which the per-trial except clause does not catch. -/
theorem calculate_error_not_caught (resp : GenResponse) (e : PyExn)
    (hc : caught_in_trial e = true) :
    calculate_tokens_per_second resp ≠ Except.error e := by
  intro h
  simp only [calculate_tokens_per_second] at h
  split at h
  · injection h with h1
    subst h1
    simp [caught_in_trial] at hc
  · exact Except.noConfusion h

/-- Helper: the trial loop never lets an exception of a caught class escape:
    any error it returns is of an uncaught class. -/
theorem trialLoop_no_caught_error (env : TrialEnv) (e : PyExn)
    (hc : caught_in_trial e = true) :
    ∀ rem i rates cur tot k, trialLoop env rem i rates cur tot k ≠ Except.error e := by
  intro rem
  induction rem with
  | zero =>
    intro i rates cur tot k h
    simp [trialLoop] at h
  | succ n ih =>
    intro i rates cur tot k h
    simp only [trialLoop] at h
    rcases hq : env.query i with e2 | resp
    · rw [hq] at h
      dsimp only at h
      by_cases hc2 : caught_in_trial e2 = true
      · rw [if_pos hc2] at h
        exact ih _ _ _ _ _ h
      · rw [if_neg hc2] at h
        injection h with h1
        subst h1
        exact hc2 hc
    · rw [hq] at h
      dsimp only at h
      rcases hcalc : calculate_tokens_per_second resp with e3 | tps
      · rw [hcalc] at h
        dsimp only at h
        injection h with h1
        exact calculate_error_not_caught resp e hc (h1 ▸ hcalc)
      · rw [hcalc] at h
        dsimp only at h
        by_cases hattr : (resp.eval_count.isSome && resp.eval_duration.isSome) = true
        · rw [if_pos hattr] at h
          exact ih _ _ _ _ _ h
        · rw [if_neg hattr] at h
          injection h with h1
          subst h1
          simp [caught_in_trial] at hc

/-- Helper: test_context_size never returns an exception of a class the
    per-trial except clause catches; in particular a trial-level
    ollama.ResponseError or TimeoutError never escapes the step. -/
theorem test_context_size_no_caught_error (env : TrialEnv) (n : Nat) (e : PyExn)
    (hc : caught_in_trial e = true) : test_context_size env n ≠ Except.error e := by
  intro h
  simp only [test_context_size] at h
  by_cases h0 : (env.vram 0).2 = 0
  · rw [if_pos h0] at h
    injection h with h1
    subst h1
    simp [caught_in_trial] at hc
  · rw [if_neg h0] at h
    rcases htl : trialLoop env n 0 [] (env.vram 0).1 (env.vram 0).2 1 with e2 | tup
    · rw [htl] at h
      dsimp only at h
      injection h with h1
      exact trialLoop_no_caught_error env e hc n 0 [] _ _ 1 (h1 ▸ htl)
    · obtain ⟨rates, cv, mv, k⟩ := tup
      rw [htl] at h
      dsimp only at h
      by_cases hemp : rates.isEmpty = true
      · rw [if_pos hemp] at h
        exact Except.noConfusion h
      · rw [if_neg hemp] at h
        exact Except.noConfusion h

/-- Helper: the Controller branch that catches ollama.ResponseError is
    unreachable, because the Trial Runner absorbs every ResponseError. -/
theorem fmcLoop_no_fatal (env : Nat → TrialEnv) (numTests : Nat) (minRate : ℚ)
    (stepSize : Nat) :
    ∀ fuel i ctx ps pr s r,
      (fmcLoop env numTests minRate stepSize fuel i ctx ps pr).1 ≠ RunResult.fatal s r := by
  intro fuel
  induction fuel with
  | zero =>
    intro i ctx ps pr s r h
    simp [fmcLoop] at h
  | succ n ih =>
    intro i ctx ps pr s r h
    simp only [fmcLoop] at h
    rcases htc : test_context_size (env i) numTests with e | sr
    · rw [htc] at h
      dsimp only at h
      by_cases he : e = PyExn.responseError
      · subst he
        exact test_context_size_no_caught_error (env i) numTests PyExn.responseError rfl htc
      · rw [if_neg he] at h
        simp at h
    · rw [htc] at h
      dsimp only at h
      by_cases hg : is_good minRate sr.avg sr.cur sr.tot = true
      · rw [if_pos hg] at h
        dsimp only at h
        exact ih _ _ _ _ _ _ h
      · rw [if_neg hg] at h
        simp at h

/-- Claim C6 amended: an ollama.ResponseError raised during a trial is
    caught inside the Trial Runner per-trial except clause and treated as
    that single trial failing - the remaining trials at the size still run
    and further steps may follow - so it never reaches the Controller, whose
    ResponseError handler is unreachable: no run ever ends through the fatal
    branch. -/
theorem c6_trial_level_response_error :
    caught_in_trial PyExn.responseError = true ∧
    (∀ env n, test_context_size env n ≠ Except.error PyExn.responseError) ∧
    (∀ env numTests minRate stepSize fuel i ctx ps pr s r,
      (fmcLoop env numTests minRate stepSize fuel i ctx ps pr).1 ≠ RunResult.fatal s r) :=
  ⟨rfl, fun env n => test_context_size_no_caught_error env n PyExn.responseError rfl,
   fun env numTests minRate stepSize fuel i ctx ps pr s r =>
     fmcLoop_no_fatal env numTests minRate stepSize fuel i ctx ps pr s r⟩

/-- Witness for the amended C6 on the concrete ResponseError run. -/
theorem c6_trial_level_response_error_witness :
    (fmcLoop envC6run 2 10 1024 1 0 1024 1024 Rate.inf).1 ≠
      RunResult.fatal 1024 Rate.inf :=
  c6_trial_level_response_error.2.2 envC6run 2 10 1024 1 0 1024 1024 Rate.inf 1024 Rate.inf

/-- Helper: when every attempt times out, the retry loop makes exactly
    max_retries attempts, sleeping once between consecutive attempts, and
    finally raises TimeoutError. -/
theorem retryFromAux_all_timeout (attempts : Nat → Except PyExn GenResponse)
    (maxRetries : Nat)
    (hall : ∀ j, j < maxRetries → attempts j = Except.error PyExn.timeoutError) :
    ∀ r k s, 1 ≤ r → k + r = maxRetries →
      retryFromAux attempts maxRetries r k s =
        ⟨Except.error PyExn.timeoutError, maxRetries, s + (r - 1)⟩ := by
  intro r
  induction r with
  | zero =>
    intro k s h1 h2
    exact absurd h1 (by omega)
  | succ n ih =>
    intro k s h1 h2
    have hak : attempts k = Except.error PyExn.timeoutError := hall k (by omega)
    simp only [retryFromAux, hak, caught_in_retry, if_true]
    by_cases hlast : k = maxRetries - 1
    · rw [if_pos hlast, show maxRetries = k + 1 by omega,
        show s + (n + 1 - 1) = s by omega]
    · rw [if_neg hlast, ih (k + 1) (s + 1) (by omega) (by omega),
        show s + 1 + (n - 1) = s + (n + 1 - 1) by omega]

/-- Helper: an exception the retry wrapper does not catch propagates
    immediately: no further attempts are made after it. -/
theorem retryFromAux_propagates (attempts : Nat → Except PyExn GenResponse)
    (maxRetries t : Nat) (e : PyExn) (ht : t < maxRetries)
    (hce : caught_in_retry e = false)
    (hbefore : ∀ j, j < t → attempts j = Except.error PyExn.timeoutError)
    (hat : attempts t = Except.error e) :
    ∀ r k s, k + r = maxRetries → k ≤ t →
      retryFromAux attempts maxRetries r k s = ⟨Except.error e, t + 1, s + (t - k)⟩ := by
  intro r
  induction r with
  | zero =>
    intro k s h2 hkt
    exact absurd h2 (by omega)
  | succ n ih =>
    intro k s h2 hkt
    by_cases hk : k = t
    · subst hk
      simp only [retryFromAux, hat]
      rw [if_neg (by simp [hce]), show s + (k - k) = s by omega]
    · have hak : attempts k = Except.error PyExn.timeoutError := hbefore k (by omega)
      simp only [retryFromAux, hak, caught_in_retry, if_true]
      rw [if_neg (show ¬ k = maxRetries - 1 by omega)]
      rw [ih (k + 1) (s + 1) (by omega) (by omega),
        show s + 1 + (t - (k + 1)) = s + (t - k) by omega]

/-- Claim C9: within a trial only per-attempt timeouts are retried, up to
    the configured maximum with one brief pause between attempts; a
    non-timeout exception propagates immediately with no further attempts;
    and exhausting every retry surfaces as TimeoutError, which the Trial
    Runner catches as a single trial failure, never escaping the step. -/
theorem c9_retry_semantics (attempts : Nat → Except PyExn GenResponse)
    (maxRetries t : Nat) (e : PyExn) :
    (0 < maxRetries →
      (∀ j, j < maxRetries → attempts j = Except.error PyExn.timeoutError) →
      run_ollama_query attempts maxRetries =
        ⟨Except.error PyExn.timeoutError, maxRetries, maxRetries - 1⟩) ∧
    (t < maxRetries → caught_in_retry e = false →
      (∀ j, j < t → attempts j = Except.error PyExn.timeoutError) →
      attempts t = Except.error e →
      run_ollama_query attempts maxRetries = ⟨Except.error e, t + 1, t⟩) ∧
    caught_in_trial PyExn.timeoutError = true ∧
    (∀ env n, test_context_size env n ≠ Except.error PyExn.timeoutError) := by
  refine ⟨?_, ?_, rfl, fun env n => test_context_size_no_caught_error env n _ rfl⟩
  · intro hpos hall
    rw [run_ollama_query,
      retryFromAux_all_timeout attempts maxRetries hall maxRetries 0 0 (by omega) (by omega),
      Nat.zero_add]
  · intro hlt hce hbef hat
    rw [run_ollama_query,
      retryFromAux_propagates attempts maxRetries t e hlt hce hbef hat maxRetries 0 0
        (by omega) (by omega),
      Nat.zero_add, Nat.sub_zero]

/-- Witness for C9: three straight timeouts exhaust the retries with two
    sleeps, while a ConnectionError on the second attempt stops the retry
    loop at two attempts. -/
theorem c9_retry_semantics_witness :
    run_ollama_query (fun _ => Except.error PyExn.timeoutError) 3 =
      ⟨Except.error PyExn.timeoutError, 3, 2⟩ ∧
    run_ollama_query attemptsMixed 3 = ⟨Except.error PyExn.connectionError, 2, 1⟩ :=
  ⟨(c9_retry_semantics (fun _ => Except.error PyExn.timeoutError) 3 0
      PyExn.connectionError).1 (by omega) (fun j hj => rfl),
   (c9_retry_semantics attemptsMixed 3 1 PyExn.connectionError).2.1 (by omega) rfl
     (fun j hj => by
       match j, hj with
       | 0, _ => rfl)
     rfl⟩

/-- Helper: with only valid trial outcomes the trial loop returns ok, takes
    one VRAM sample per successful trial, and leaves the rate list and the
    VRAM variables untouched when no trial succeeds. -/
theorem trialLoop_ok (env : TrialEnv) :
    ∀ rem i rates cur tot k,
      (∀ j, i ≤ j → j < i + rem → validTrial (env.query j) = true) →
      ∃ rates2 cur2 tot2,
        trialLoop env rem i rates cur tot k =
          Except.ok (rates2, cur2, tot2, k + successesIn env i rem) ∧
        rates2.length = rates.length + successesIn env i rem ∧
        (successesIn env i rem = 0 → rates2 = rates ∧ cur2 = cur ∧ tot2 = tot) := by
  intro rem
  induction rem with
  | zero =>
    intro i rates cur tot k hv
    exact ⟨rates, cur, tot, by simp [trialLoop, successesIn], by simp [successesIn],
      fun _ => ⟨rfl, rfl, rfl⟩⟩
  | succ n ih =>
    intro i rates cur tot k hv
    have hv0 : validTrial (env.query i) = true := hv i le_rfl (by omega)
    rcases hq : env.query i with e | resp
    · rw [hq] at hv0
      have hce : caught_in_trial e = true := by simpa [validTrial] using hv0
      have hs : successesIn env i (n + 1) = successesIn env (i + 1) n := by
        simp [successesIn, hq, isSuccess]
      obtain ⟨rates2, cur2, tot2, heq, hlen, hzero⟩ :=
        ih (i + 1) rates cur tot k (fun j hj1 hj2 => hv j (by omega) (by omega))
      refine ⟨rates2, cur2, tot2, ?_, ?_, ?_⟩
      · simp only [trialLoop, hq]
        rw [if_pos hce, heq, hs]
      · rw [hs]; exact hlen
      · rw [hs]; exact hzero
    · rw [hq] at hv0
      simp only [validTrial, Bool.and_eq_true, decide_eq_true_eq] at hv0
      obtain ⟨⟨hc1, hd1⟩, hd0⟩ := hv0
      obtain ⟨dv, hdv⟩ := Option.isSome_iff_exists.mp hd1
      have hdvne : dv ≠ 0 := by
        intro h
        exact hd0 (by rw [hdv, h])
      have hden : ((dv : ℚ)) * (1 / 1000000000) ≠ 0 :=
        mul_ne_zero (Int.cast_ne_zero.mpr hdvne) (by norm_num)
      have hcalc : calculate_tokens_per_second resp =
          Except.ok (((resp.eval_count.getD 0 : Int) : ℚ) / ((dv : ℚ) * (1 / 1000000000))) := by
        simp only [calculate_tokens_per_second, hdv, Option.getD_some]
        rw [if_neg hden]
      have hs : successesIn env i (n + 1) = 1 + successesIn env (i + 1) n := by
        simp [successesIn, hq, isSuccess]
      obtain ⟨rates2, cur2, tot2, heq, hlen, hzero⟩ :=
        ih (i + 1)
          (rates ++ [((resp.eval_count.getD 0 : Int) : ℚ) / ((dv : ℚ) * (1 / 1000000000))])
          (env.vram k).1 (env.vram k).2 (k + 1)
          (fun j hj1 hj2 => hv j (by omega) (by omega))
      refine ⟨rates2, cur2, tot2, ?_, ?_, ?_⟩
      · simp only [trialLoop, hq, hcalc]
        rw [if_pos (by simp [hc1, hd1]), heq, hs,
          show k + (1 + successesIn env (i + 1) n) = k + 1 + successesIn env (i + 1) n
            by omega]
      · rw [hs, hlen]
        simp [List.length_append]
        omega
      · rw [hs]
        intro h10
        exact absurd h10 (by omega)

/-- Helper: a run of trials that all fail has zero successes. -/
theorem successesIn_eq_zero (env : TrialEnv) :
    ∀ rem i, (∀ j, i ≤ j → j < i + rem → isSuccess (env.query j) = false) →
      successesIn env i rem = 0 := by
  intro rem
  induction rem with
  | zero =>
    intro i h
    rfl
  | succ n ih =>
    intro i h
    have h0 : isSuccess (env.query i) = false := h i le_rfl (by omega)
    have hrec := ih (i + 1) (fun j hj1 hj2 => h j (by omega) (by omega))
    simp [successesIn, h0, hrec]

/-- Claim C7 amended: the Trial Runner samples memory once before the first
    attempt and once after each successful attempt only - a failed attempt
    takes no sample - and when every attempt fails the reported reading is
    the initial sample, the last one actually taken, with mean rate 0. -/
theorem c7_sampling_on_success_only (env : TrialEnv) (n : Nat)
    (h0 : (env.vram 0).2 ≠ 0)
    (hv : ∀ j, j < n → validTrial (env.query j) = true) :
    ∃ sr, test_context_size env n = Except.ok sr ∧
      sr.samples = 1 + successesIn env 0 n ∧
      (successesIn env 0 n = 0 →
        sr.avg = 0 ∧ sr.cur = (env.vram 0).1 ∧ sr.tot = (env.vram 0).2) := by
  obtain ⟨rates2, cur2, tot2, heq, hlen, hzero⟩ :=
    trialLoop_ok env n 0 [] (env.vram 0).1 (env.vram 0).2 1
      (fun j hj1 hj2 => hv j (by omega))
  by_cases hs0 : successesIn env 0 n = 0
  · obtain ⟨hr2, hc2, ht2⟩ := hzero hs0
    subst hr2
    refine ⟨⟨0, cur2, tot2, 1 + successesIn env 0 n⟩, ?_, rfl,
      fun _ => ⟨rfl, hc2, ht2⟩⟩
    simp [test_context_size, heq, h0]
  · have hne : rates2.isEmpty = false := by
      cases rates2 with
      | nil =>
        simp at hlen
        exact absurd hlen.symm hs0
      | cons a t => rfl
    refine ⟨⟨mean rates2, cur2, tot2, 1 + successesIn env 0 n⟩, ?_, rfl,
      fun h => absurd h hs0⟩
    simp [test_context_size, heq, h0, hne]

/-- Witness for the amended C7: one failed and one successful trial give two
    samples in total. -/
theorem c7_sampling_on_success_only_witness :
    ∃ sr, test_context_size envC7mix 2 = Except.ok sr ∧
      sr.samples = 1 + successesIn envC7mix 0 2 ∧
      (successesIn envC7mix 0 2 = 0 →
        sr.avg = 0 ∧ sr.cur = (envC7mix.vram 0).1 ∧ sr.tot = (envC7mix.vram 0).2) :=
  c7_sampling_on_success_only envC7mix 2 (by decide!) (by
    intro j hj
    match j, hj with
    | 0, _ => rfl
    | 1, _ => rfl)

/-- Claim C8 amended: a step whose every trial fails with a caught exception
    yields mean rate exactly 0, and with a positive minimum token rate the
    Controller rejects it and stops the run, returning the previous pair. -/
theorem c8_all_failed_step_rejected (env : Nat → TrialEnv) (numTests : Nat)
    (minRate : ℚ) (stepSize fuel i ctx ps : Nat) (pr : Rate)
    (hmr : 0 < minRate)
    (hfail : ∀ j, j < numTests →
      ∃ e, (env i).query j = Except.error e ∧ caught_in_trial e = true)
    (h0 : ((env i).vram 0).2 ≠ 0) :
    test_context_size (env i) numTests =
      Except.ok ⟨0, ((env i).vram 0).1, ((env i).vram 0).2, 1⟩ ∧
    fmcLoop env numTests minRate stepSize (fuel + 1) i ctx ps pr =
      (RunResult.rejected ps pr, [ctx], []) := by
  have hsz : successesIn (env i) 0 numTests = 0 := by
    apply successesIn_eq_zero
    intro j hj1 hj2
    obtain ⟨e, hqe, _⟩ := hfail j (by omega)
    rw [hqe]
    rfl
  obtain ⟨rates2, cur2, tot2, heq, hlen, hzero⟩ :=
    trialLoop_ok (env i) numTests 0 [] ((env i).vram 0).1 ((env i).vram 0).2 1
      (fun j hj1 hj2 => by
        obtain ⟨e, hqe, hce⟩ := hfail j (by omega)
        rw [hqe]
        simpa [validTrial] using hce)
  obtain ⟨hr2, hc2, ht2⟩ := hzero hsz
  subst hr2
  subst hc2
  subst ht2
  rw [hsz] at heq
  have htcs : test_context_size (env i) numTests =
      Except.ok ⟨0, ((env i).vram 0).1, ((env i).vram 0).2, 1⟩ := by
    simp [test_context_size, heq, h0]
  refine ⟨htcs, ?_⟩
  simp only [fmcLoop, htcs]
  have hig : ¬ is_good minRate 0 ((env i).vram 0).1 ((env i).vram 0).2 = true := by
    simp only [is_good, Bool.and_eq_true, decide_eq_true_eq]
    intro hcon
    exact absurd hcon.1 (by intro hle; exact absurd (lt_of_lt_of_le hmr hle) (lt_irrefl 0))
  rw [if_neg hig]

/-- Witness for the amended C8: two failed trials at 1024 with positive
    minimum rate reject the step and return the incoming previous pair. -/
theorem c8_all_failed_step_rejected_witness :
    test_context_size envAllFail 2 = Except.ok ⟨0, 1000, 8000, 1⟩ ∧
    fmcLoop (fun _ => envAllFail) 2 10 1024 1 0 1024 1024 Rate.inf =
      (RunResult.rejected 1024 Rate.inf, [1024], []) :=
  c8_all_failed_step_rejected (fun _ => envAllFail) 2 10 1024 0 0 1024 1024 Rate.inf
    (by norm_num) (fun j hj => ⟨PyExn.timeoutError, rfl, rfl⟩) (by decide!)
